import Mathlib

/-!
Verification of the transfer-job body preprocessor/validator and of the
intersphinx inventory mapping builder of this repository.

The operator module that defines TransferJobPreprocessor and
TransferJobValidator is not part of the reviewed sources; only its unit
tests are.  The definitions below for that part are therefore modelled
from the specification (sections 4.2 and 4.3) and pinned by the unit
tests in test_cloud_storage_transfer_service.py.  The inventory mapping
builder is translated directly from airflow_intersphinx.py.
-/

/-! ## Data model: transfer job request body -/

/-- Modelled from the spec: a native calendar date, as produced by the
Python date constructor date(year, month, day). -/
structure CalDate where
  year : Nat
  month : Nat
  day : Nat
deriving DecidableEq

/-- Modelled from the spec: a native time of day, as produced by the
Python time constructor time(hour, minute, second). -/
structure ClockTime where
  hour : Nat
  minute : Nat
  second : Nat
deriving DecidableEq

/-- Modelled from the spec: the field-mapping form of a calendar date,
with keys day, month and year. -/
structure DateFieldsDict where
  day : Nat
  month : Nat
  year : Nat
deriving DecidableEq

/-- Modelled from the spec: the field-mapping form of a time of day,
with keys hours, minutes and seconds. -/
structure TimeFieldsDict where
  hours : Nat
  minutes : Nat
  seconds : Nat
deriving DecidableEq

/-- Modelled from the spec: a schedule date entry is either a native
calendar value or an already converted field-mapping. -/
inductive DateValue
  | native (d : CalDate)
  | fields (f : DateFieldsDict)
deriving DecidableEq

/-- Modelled from the spec: a schedule time entry is either a native
time value or an already converted field-mapping. -/
inductive TimeValue
  | native (t : ClockTime)
  | fields (f : TimeFieldsDict)
deriving DecidableEq

/-- Modelled from the spec: the schedule block of a transfer job body,
with the keys scheduleStartDate, scheduleEndDate and startTimeOfDay. -/
structure Schedule where
  scheduleStartDate : Option DateValue
  scheduleEndDate : Option DateValue
  startTimeOfDay : Option TimeValue
deriving DecidableEq

/-- Modelled from the spec: the awsAccessKey block injected into (or
illegally supplied inside) the AWS S3 data source, with the keys
accessKeyId and secretAccessKey. -/
structure AwsAccessKeyDict where
  accessKeyId : String
  secretAccessKey : String
deriving DecidableEq

/-- Modelled from the spec: the awsS3DataSource block of a transfer
specification. -/
structure AwsS3DataSource where
  bucketName : Option String
  path : Option String
  awsRoleArn : Option String
  awsAccessKey : Option AwsAccessKeyDict
deriving DecidableEq

/-- Modelled from the spec: the gcsDataSource block of a transfer
specification. -/
structure GcsDataSource where
  bucketName : Option String
  path : Option String
deriving DecidableEq

/-- Modelled from the spec: the httpDataSource block of a transfer
specification. -/
structure HttpDataSource where
  listUrl : Option String
deriving DecidableEq

/-- Modelled from the spec: the gcsDataSink block of a transfer
specification. -/
structure GcsDataSink where
  bucketName : Option String
  path : Option String
deriving DecidableEq

/-- Modelled from the spec: the transferSpec block of a transfer job
body.  A key that is absent from the Python dict is none here. -/
structure TransferSpec where
  gcsDataSource : Option GcsDataSource
  awsS3DataSource : Option AwsS3DataSource
  httpDataSource : Option HttpDataSource
  gcsDataSink : Option GcsDataSink
deriving DecidableEq

/-- Modelled from the spec: a transfer job request body, a string-keyed
mapping whose relevant keys are name, description, status, schedule and
transferSpec.  A key that is absent from the Python dict is none here. -/
structure TransferJobBody where
  name : Option String
  description : Option String
  status : Option String
  schedule : Option Schedule
  transferSpec : Option TransferSpec
deriving DecidableEq

/-- The body with no keys at all: the Python empty dict. -/
def emptyTransferJobBody : TransferJobBody :=
  { name := none, description := none, status := none, schedule := none, transferSpec := none }

/-- Truth value of the Python test `not body` on a present body: the
dict is empty exactly when every modelled key is absent. -/
def TransferJobBody.isEmptyBody (b : TransferJobBody) : Bool :=
  b.name.isNone && b.description.isNone && b.status.isNone
    && b.schedule.isNone && b.transferSpec.isNone

/-- Truth value of the Python test `not body` on an optional body:
true for None and for the empty dict. -/
def bodyFalsy : Option TransferJobBody → Bool
  | none => true
  | some b => b.isEmptyBody

/-- Modelled from the spec: the access key id and secret access key
returned by the credential resolver (the AWS hook). -/
structure Credentials where
  access_key : String
  secret_key : String
deriving DecidableEq

/-! ## Transfer job body preprocessor

Modelled from the spec, section 4.2, and pinned by the unit tests of
TestTransferJobPreprocessor.  The missing source is the operator module
class TransferJobPreprocessor; process_body takes the default_schedule
flag, the resolved credentials and the current date as parameters. -/

/-- Modelled from the spec: convert a native calendar date to its
field-mapping with keys day, month and year. -/
def _convert_date_to_dict (d : CalDate) : DateFieldsDict :=
  { day := d.day, month := d.month, year := d.year }

/-- Modelled from the spec: convert a native time of day to its
field-mapping with keys hours, minutes and seconds. -/
def _convert_time_to_dict (t : ClockTime) : TimeFieldsDict :=
  { hours := t.hour, minutes := t.minute, seconds := t.second }

/-- Modelled from the spec: a date entry of native shape is converted
to its field-mapping; an entry already in field-mapping form is left
unchanged. -/
def _reformat_date : DateValue → DateValue
  | .native d => .fields (_convert_date_to_dict d)
  | .fields f => .fields f

/-- Modelled from the spec: a time entry of native shape is converted
to its field-mapping; an entry already in field-mapping form is left
unchanged. -/
def _reformat_time : TimeValue → TimeValue
  | .native t => .fields (_convert_time_to_dict t)
  | .fields f => .fields f

/-- Reformat the three date and time entries of a schedule block. -/
def reformatScheduleFields (s : Schedule) : Schedule :=
  { scheduleStartDate := s.scheduleStartDate.map _reformat_date,
    scheduleEndDate := s.scheduleEndDate.map _reformat_date,
    startTimeOfDay := s.startTimeOfDay.map _reformat_time }

/-- Modelled from the spec: when the body has no schedule, a default
schedule with start and end dates equal to the current date is inserted
if and only if the default_schedule flag is set (the unit test
test_should_set_default_schedule pins that this happens even for an
empty body); then every date and time entry of the schedule is
reformatted. -/
def _reformat_schedule (default_schedule : Bool) (today : CalDate)
    (b : TransferJobBody) : TransferJobBody :=
  match b.schedule with
  | none =>
    if default_schedule then
      let defaultSched : Schedule :=
        { scheduleStartDate := some (.native today),
          scheduleEndDate := some (.native today),
          startTimeOfDay := none }
      { b with schedule := some (reformatScheduleFields defaultSched) }
    else b
  | some s => { b with schedule := some (reformatScheduleFields s) }

/-- Modelled from the spec: when the transfer specification has an AWS
S3 data source that does not already carry a role based access
arrangement (awsRoleArn), the resolved access key id and secret are
injected into the source block under awsAccessKey; when awsRoleArn is
present nothing is injected. -/
def _inject_aws_credentials (creds : Credentials) (b : TransferJobBody) : TransferJobBody :=
  match b.transferSpec with
  | none => b
  | some spec =>
    match spec.awsS3DataSource with
    | none => b
    | some src =>
      if src.awsRoleArn.isSome then b
      else
        let newKey : AwsAccessKeyDict :=
          { accessKeyId := creds.access_key, secretAccessKey := creds.secret_key }
        let newSrc : AwsS3DataSource := { src with awsAccessKey := some newKey }
        let newSpec : TransferSpec := { spec with awsS3DataSource := some newSrc }
        { b with transferSpec := some newSpec }

/-- Modelled from the spec: the missing TransferJobPreprocessor method
process_body, which injects AWS credentials and then reformats the
schedule, returning the (conceptually mutated) body. -/
def process_body (default_schedule : Bool) (creds : Credentials) (today : CalDate)
    (b : TransferJobBody) : TransferJobBody :=
  _reformat_schedule default_schedule today (_inject_aws_credentials creds b)

/-! ## Transfer job body validator

Modelled from the spec, section 4.3, and pinned by the unit tests of
TestTransferJobValidator.  The missing source is the operator module
class TransferJobValidator; a raised ConfigurationError is an
Except.error carrying the message. -/

/-- The message raised for an absent or empty body. -/
def emptyBodyMsg : String :=
  "The required parameter body is empty or None"

/-- The message raised when raw AWS credentials are found in the body. -/
def awsCredentialsMsg : String :=
  "AWS credentials detected inside the body parameter (awsAccessKey). This is not allowed, please use Airflow connections to store credentials."

/-- The message raised when several data sources are present. -/
def multiSourceMsg : String :=
  "More than one data source detected. Please choose exactly one data source from: gcsDataSource, awsS3DataSource and httpDataSource."

/-- Modelled from the spec: the empty-body check, failing when the body
is None or the empty dict. -/
def _restrict_empty_body (body : Option TransferJobBody) : Except String Unit :=
  if bodyFalsy body then Except.error emptyBodyMsg else Except.ok ()

/-- Modelled from the spec: the credential-leak check, failing when the
AWS S3 data source block carries an awsAccessKey entry. -/
def _restrict_aws_credentials (spec : TransferSpec) : Except String Unit :=
  match spec.awsS3DataSource with
  | none => Except.ok ()
  | some src =>
    if src.awsAccessKey.isSome then Except.error awsCredentialsMsg else Except.ok ()

/-- The number of data source blocks present in a transfer
specification. -/
def sourceCount (spec : TransferSpec) : Nat :=
  (if spec.gcsDataSource.isSome then 1 else 0)
    + (if spec.awsS3DataSource.isSome then 1 else 0)
    + (if spec.httpDataSource.isSome then 1 else 0)

/-- Modelled from the spec: the multi-source check, failing when more
than one data source block is present. -/
def _verify_data_source (spec : TransferSpec) : Except String Unit :=
  if sourceCount spec > 1 then Except.error multiSourceMsg else Except.ok ()

/-- Modelled from the spec: the missing TransferJobValidator method
validate_body, which runs the empty-body check first and then, when a
transfer specification is present, the credential-leak check followed
by the multi-source check. -/
def validate_body (body : Option TransferJobBody) : Except String Unit :=
  match _restrict_empty_body body with
  | Except.error e => Except.error e
  | Except.ok _ =>
    match body with
    | none => Except.ok ()
    | some b =>
      match b.transferSpec with
      | none => Except.ok ()
      | some spec =>
        match _restrict_aws_credentials spec with
        | Except.error e => Except.error e
        | Except.ok _ => _verify_data_source spec

/-! ## Spec-side validation conditions

Independent renderings of the three failure conditions as the claims
word them, used to state that validation fails exactly on them. -/

/-- Condition as the spec words it: the body argument is absent or is
the empty mapping. -/
def emptyBodyCond : Option TransferJobBody → Bool
  | none => true
  | some b => decide (b = emptyTransferJobBody)

/-- Condition as the spec words it: the transfer spec has an AWS S3
source block that contains a raw access-key credential. -/
def awsCredentialsCond : Option TransferJobBody → Bool
  | none => false
  | some b =>
    match b.transferSpec with
    | none => false
    | some spec =>
      match spec.awsS3DataSource with
      | none => false
      | some src => src.awsAccessKey.isSome

/-- Condition as the spec words it: the transfer spec contains more
than one of the three data source types, stated as a pairwise
disjunction over the three blocks. -/
def multiSourceCond : Option TransferJobBody → Bool
  | none => false
  | some b =>
    match b.transferSpec with
    | none => false
    | some spec =>
      (spec.gcsDataSource.isSome && spec.awsS3DataSource.isSome)
        || (spec.gcsDataSource.isSome && spec.httpDataSource.isSome)
        || (spec.awsS3DataSource.isSome && spec.httpDataSource.isSome)

/-! ## Inventory mapping builder

Translated from airflow_intersphinx.py.  The filesystem is a list of
the paths that exist; the environment variable AIRFLOW_PACKAGE_NAME is
an optional string; the provider package list stands for the result of
load_package_data.  A Python dict is an association list with unique
keys, written via dictInsert (assignment) and dictLookup (membership
and item access). -/

/-- An intersphinx inventory entry: base URI and one-element tuple of
inventory paths. -/
abbrev InventoryEntry := String × List String

/-- A string-keyed mapping, the shallow embedding of a Python dict. -/
abbrev InventoryMapping := List (String × InventoryEntry)

/-- Assignment into a dict: overwrite the value at an existing key,
append a fresh key at the end. -/
def dictInsert (m : InventoryMapping) (k : String) (v : InventoryEntry) : InventoryMapping :=
  match m with
  | [] => [(k, v)]
  | (k1, v1) :: rest =>
    if k1 = k then (k, v) :: rest else (k1, v1) :: dictInsert rest k v

/-- Item lookup in a dict. -/
def dictLookup (m : InventoryMapping) (k : String) : Option InventoryEntry :=
  match m with
  | [] => none
  | (k1, v1) :: rest => if k1 = k then some v1 else dictLookup rest k

/-- Path of a freshly built inventory for a package documented under a
stable version directory, relative to the Airflow root. -/
def docInventoryPath (pkg : String) : String :=
  "generated/_build/docs/" ++ pkg ++ "/stable/objects.inv"

/-- Path of the cached inventory for a package, relative to the
Airflow root. -/
def cacheInventoryPath (pkg : String) : String :=
  "generated/_inventory_cache/" ++ pkg ++ "/objects.inv"

/-- Path of a freshly built inventory for a top-level documentation
set, which has no version directory. -/
def topDocInventoryPath (pkg : String) : String :=
  "generated/_build/docs/" ++ pkg ++ "/objects.inv"

/-- Base URI of a package documented under a stable version
directory. -/
def stableBaseUrl (pkg : String) : String :=
  "/docs/" ++ pkg ++ "/stable/"

/-- Base URI of a top-level documentation set. -/
def topBaseUrl (pkg : String) : String :=
  "/docs/" ++ pkg ++ "/"

/-- The inventory entry stored for a package documented under a stable
version directory: the freshly built path when it exists on the
filesystem, the cached path otherwise. -/
def stableInventoryEntry (fs : List String) (pkg : String) : InventoryEntry :=
  (stableBaseUrl pkg,
   [if fs.contains (docInventoryPath pkg) then docInventoryPath pkg else cacheInventoryPath pkg])

/-- The inventory entry stored for a top-level documentation set. -/
def topInventoryEntry (fs : List String) (pkg : String) : InventoryEntry :=
  (topBaseUrl pkg,
   [if fs.contains (topDocInventoryPath pkg) then topDocInventoryPath pkg else cacheInventoryPath pkg])

/-- One iteration of the provider loop: skip the current build package,
skip a package for which neither inventory path exists, and otherwise
store its entry. -/
def addProviderPackage (env : Option String) (fs : List String)
    (m : InventoryMapping) (pkg : String) : InventoryMapping :=
  if env = some pkg then m
  else if !(fs.contains (docInventoryPath pkg)) && !(fs.contains (cacheInventoryPath pkg)) then m
  else dictInsert m pkg (stableInventoryEntry fs pkg)

/-- One iteration of the loop over the three extra virtual packages:
skip the current build package, otherwise store the entry without any
existence check. -/
def addCorePackage (env : Option String) (fs : List String)
    (m : InventoryMapping) (pkg : String) : InventoryMapping :=
  if env = some pkg then m
  else dictInsert m pkg (stableInventoryEntry fs pkg)

/-- One iteration of the loop over the two extra top-level
documentation sets: skip the current build package, otherwise store the
entry without any existence check. -/
def addTopPackage (env : Option String) (fs : List String)
    (m : InventoryMapping) (pkg : String) : InventoryMapping :=
  if env = some pkg then m
  else dictInsert m pkg (topInventoryEntry fs pkg)

/-- The three extra virtual packages appended after the provider
loop. -/
def corePackages : List String := ["apache-airflow", "helm-chart", "task-sdk"]

/-- The two extra top-level documentation sets appended last. -/
def topPackages : List String := ["apache-airflow-providers", "docker-stack"]

/-- The function _generate_provider_intersphinx_mapping: the provider
loop over the package list, then the three virtual packages, then the
two top-level documentation sets. -/
def _generate_provider_intersphinx_mapping (packages : List String)
    (env : Option String) (fs : List String) : InventoryMapping :=
  let m1 := packages.foldl (addProviderPackage env fs) []
  let m2 := corePackages.foldl (addCorePackage env fs) m1
  topPackages.foldl (addTopPackage env fs) m2

/-- Python dict.update: assign every pair of the second mapping into
the first, in order. -/
def dictUpdate (m pm : InventoryMapping) : InventoryMapping :=
  pm.foldl (fun acc kv => dictInsert acc kv.1 kv.2) m

/-- The config-inited hook _create_init_py: take the pre-existing
intersphinx mapping of the configuration (an absent or falsy attribute
becomes the empty dict), update it with the generated provider mapping
and store the result back. -/
def _create_init_py (packages : List String) (env : Option String) (fs : List String)
    (prior : Option InventoryMapping) : InventoryMapping :=
  let intersphinx_mapping := match prior with | none => [] | some m => m
  let providers_mapping := _generate_provider_intersphinx_mapping packages env fs
  dictUpdate intersphinx_mapping providers_mapping

/-! ## Further definitions used by the statements -/

/-- The AWS S3 data source block of a body, when present. -/
def awsSourceOf (b : TransferJobBody) : Option AwsS3DataSource :=
  match b.transferSpec with
  | none => none
  | some spec => spec.awsS3DataSource

/-- The scheduleStartDate entry of a body, when present. -/
def scheduleStartDateOf (b : TransferJobBody) : Option DateValue :=
  match b.schedule with
  | none => none
  | some s => s.scheduleStartDate

/-- The scheduleEndDate entry of a body, when present. -/
def scheduleEndDateOf (b : TransferJobBody) : Option DateValue :=
  match b.schedule with
  | none => none
  | some s => s.scheduleEndDate

/-- The startTimeOfDay entry of a body, when present. -/
def startTimeOfDayOf (b : TransferJobBody) : Option TimeValue :=
  match b.schedule with
  | none => none
  | some s => s.startTimeOfDay

/-- The body holding only the default schedule for a given day, with
both dates already in field-mapping form. -/
def defaultScheduleOnlyBody (today : CalDate) : TransferJobBody :=
  let sched : Schedule :=
    { scheduleStartDate := some (.fields (_convert_date_to_dict today)),
      scheduleEndDate := some (.fields (_convert_date_to_dict today)),
      startTimeOfDay := none }
  { emptyTransferJobBody with schedule := some sched }

/-- A transfer specification with a sink but no data source at all. -/
def zeroSourceSpec : TransferSpec :=
  { gcsDataSource := none, awsS3DataSource := none, httpDataSource := none,
    gcsDataSink := some { bucketName := some "gcp-bucket-name", path := none } }

/-- A non-empty body whose transfer specification has no data source. -/
def zeroSourceBody : TransferJobBody :=
  { name := some "job-name", description := some "description", status := some "ENABLED",
    schedule := none, transferSpec := some zeroSourceSpec }

/-- A transfer specification with exactly the GCS data source. -/
def gcsOnlySpec : TransferSpec :=
  { gcsDataSource := some { bucketName := some "gcp-bucket-name", path := none },
    awsS3DataSource := none, httpDataSource := none,
    gcsDataSink := some { bucketName := some "gcp-bucket-name", path := none } }

/-- A valid body whose transfer specification has exactly one data
source. -/
def gcsOnlyBody : TransferJobBody :=
  { name := some "job-name", description := some "description", status := some "ENABLED",
    schedule := none, transferSpec := some gcsOnlySpec }

/-- An AWS S3 source block without role based access and without an
access key, like SOURCE_AWS of the unit tests. -/
def sourceAwsBlock : AwsS3DataSource :=
  { bucketName := some "aws-bucket-name", path := none, awsRoleArn := none, awsAccessKey := none }

/-- An AWS S3 source block that carries a role ARN, like
SOURCE_AWS_ROLE_ARN of the unit tests. -/
def sourceAwsRoleArnBlock : AwsS3DataSource :=
  { bucketName := some "aws-bucket-name", path := none, awsRoleArn := some "aRoleARn",
    awsAccessKey := none }

/-- A transfer specification holding only the AWS S3 source block. -/
def awsOnlySpec : TransferSpec :=
  { gcsDataSource := none, awsS3DataSource := some sourceAwsBlock, httpDataSource := none,
    gcsDataSink := none }

/-- A body holding only a transfer specification with an AWS S3
source, like the body of test_should_inject_aws_credentials. -/
def awsOnlyBody : TransferJobBody :=
  { name := none, description := none, status := none, schedule := none,
    transferSpec := some awsOnlySpec }

/-- The credentials returned by the mocked resolver in the unit
tests. -/
def testCredentials : Credentials :=
  { access_key := "test-key-1", secret_key := "test-secret-1" }

/-! ## Convenience operators

Modelled from the spec, section 4.4, and pinned by the unit tests: the
construction-time precondition of the S3 to GCS and GCS to GCS
operators and their deferred completion callback.  Construction is a
function returning either the built operator or the
ConfigurationError message raised by the constructor, so a failure
happens before any execution step can run. -/

/-- The constructor message raised when deletion is requested without
waiting. -/
def deleteWithoutWaitMsg : String :=
  "If delete_job_after_completion is True, then wait must also be True."

/-- Modelled from the spec: the constructor-relevant state of the S3 to
GCS convenience operator. -/
structure CloudDataTransferServiceS3ToGCSOperator where
  task_id : String
  s3_bucket : String
  gcs_bucket : String
  wait : Bool
  delete_job_after_completion : Bool
deriving DecidableEq

/-- Modelled from the spec: construction of the S3 to GCS operator,
failing fast when delete_job_after_completion is requested without
wait. -/
def mkS3ToGCSOperator (task_id s3_bucket gcs_bucket : String)
    (wait delete_job_after_completion : Bool) :
    Except String CloudDataTransferServiceS3ToGCSOperator :=
  if delete_job_after_completion && !wait then Except.error deleteWithoutWaitMsg
  else Except.ok { task_id := task_id, s3_bucket := s3_bucket, gcs_bucket := gcs_bucket,
                   wait := wait, delete_job_after_completion := delete_job_after_completion }

/-- Modelled from the spec: the constructor-relevant state of the GCS
to GCS convenience operator. -/
structure CloudDataTransferServiceGCSToGCSOperator where
  task_id : String
  source_bucket : String
  destination_bucket : String
  wait : Bool
  delete_job_after_completion : Bool
deriving DecidableEq

/-- Modelled from the spec: construction of the GCS to GCS operator,
failing fast when delete_job_after_completion is requested without
wait. -/
def mkGCSToGCSOperator (task_id source_bucket destination_bucket : String)
    (wait delete_job_after_completion : Bool) :
    Except String CloudDataTransferServiceGCSToGCSOperator :=
  if delete_job_after_completion && !wait then Except.error deleteWithoutWaitMsg
  else Except.ok { task_id := task_id, source_bucket := source_bucket,
                   destination_bucket := destination_bucket, wait := wait,
                   delete_job_after_completion := delete_job_after_completion }

/-- Modelled from the spec: the completion event delivered to a
deferred operator on resumption, either a success status or an error
status carrying a message. -/
inductive CompletionEvent where
  | success
  | error (message : String)
deriving DecidableEq

/-- Modelled from the spec: the deferred completion callback of the S3
to GCS operator; an error event is re-raised as a user visible failure
carrying the message, a success event completes silently. -/
def CloudDataTransferServiceS3ToGCSOperator.execute_complete
    (_op : CloudDataTransferServiceS3ToGCSOperator) (event : CompletionEvent) :
    Except String Unit :=
  match event with
  | .success => Except.ok ()
  | .error m => Except.error m

/-- Modelled from the spec: the deferred completion callback of the GCS
to GCS operator; an error event is re-raised as a user visible failure
carrying the message, a success event completes silently. -/
def CloudDataTransferServiceGCSToGCSOperator.execute_complete
    (_op : CloudDataTransferServiceGCSToGCSOperator) (event : CompletionEvent) :
    Except String Unit :=
  match event with
  | .success => Except.ok ()
  | .error m => Except.error m

/-- The key list of a mapping. -/
def mappingKeys (m : InventoryMapping) : List String :=
  m.map Prod.fst

/-- The AWS S3 source block after injection of resolved credentials:
exactly the resolved access key id and secret, under awsAccessKey. -/
def injectedAwsSource (creds : Credentials) (src : AwsS3DataSource) : AwsS3DataSource :=
  { src with awsAccessKey := some { accessKeyId := creds.access_key,
                                    secretAccessKey := creds.secret_key } }

/-- The native date of the unit tests, date(2018, 10, 15). -/
def testDate : CalDate := { year := 2018, month := 10, day := 15 }

/-- The native time of the unit tests, time(11, 42, 43). -/
def testTime : ClockTime := { hour := 11, minute := 42, second := 43 }

/-- A schedule holding the three native entries of the unit tests. -/
def nativeSchedule : Schedule :=
  { scheduleStartDate := some (.native testDate),
    scheduleEndDate := some (.native testDate),
    startTimeOfDay := some (.native testTime) }

/-- A body holding only the native schedule of the unit tests. -/
def nativeScheduleBody : TransferJobBody :=
  { name := none, description := none, status := none,
    schedule := some nativeSchedule, transferSpec := none }

/-! ## Helper lemmas: preprocessor and validator -/

theorem isEmptyBody_eq_decide (b : TransferJobBody) :
    b.isEmptyBody = decide (b = emptyTransferJobBody) := by
  obtain ⟨n, d, st, sch, sp⟩ := b
  cases n <;> cases d <;> cases st <;> cases sch <;> cases sp <;> rfl

/-- C1: validate raises a ConfigurationError exactly when one of the
three conditions holds on its body argument, namely an absent or empty
body (with the message naming body), a raw access-key credential
inside the AWS S3 source block (with the message naming awsAccessKey
and directing credentials to the managed-connection store), or more
than one of the three data-source types (with the message naming all
three field names), and passes silently otherwise; when several
conditions hold the single raised error follows the fixed order:
empty body first, then credential leak, then multiple sources. -/
theorem validate_body_matches_ordered_checks (body : Option TransferJobBody) :
    validate_body body =
      (if emptyBodyCond body then Except.error emptyBodyMsg
       else if awsCredentialsCond body then Except.error awsCredentialsMsg
       else if multiSourceCond body then Except.error multiSourceMsg
       else Except.ok ()) := by
  cases body with
  | none => rfl
  | some b =>
    obtain ⟨n, d, st, sch, sp⟩ := b
    simp only [emptyBodyCond, ← isEmptyBody_eq_decide]
    cases hemp : TransferJobBody.isEmptyBody ⟨n, d, st, sch, sp⟩ with
    | true =>
      simp only [validate_body, _restrict_empty_body, bodyFalsy, hemp, if_true]
    | false =>
      simp only [validate_body, _restrict_empty_body, bodyFalsy, hemp, if_false,
        Bool.false_eq_true]
      cases sp with
      | none => rfl
      | some spec =>
        obtain ⟨g, a, h, k⟩ := spec
        cases a with
        | none => cases g <;> cases h <;> rfl
        | some src =>
          obtain ⟨bn, p, arn, ak⟩ := src
          cases ak with
          | some key => rfl
          | none => cases g <;> cases h <;> rfl

/-- C3 counterexample: a non-empty body whose transfer specification
holds a sink but no data source at all passes validation, so a body on
which validate passes need not contain exactly one data source. -/
theorem validate_allows_zero_sources_counterexample :
    validate_body (some zeroSourceBody) = Except.ok ()
      ∧ zeroSourceBody.transferSpec = some zeroSourceSpec
      ∧ sourceCount zeroSourceSpec ≠ 1 := by
  refine ⟨rfl, rfl, ?_⟩
  decide

/-- C3 amended: for every body on which validate passes, the transfer
specification (when present) contains at most one of the three
data-source types; zero sources, and bodies without a transfer
specification, also pass. -/
theorem validate_passes_at_most_one_source (b : TransferJobBody) (spec : TransferSpec)
    (hok : validate_body (some b) = Except.ok ()) (hspec : b.transferSpec = some spec) :
    sourceCount spec ≤ 1 := by
  simp only [validate_body, _restrict_empty_body, _restrict_aws_credentials,
    _verify_data_source, hspec] at hok
  split at hok
  · exact Except.noConfusion hok
  · split at hok
    · exact Except.noConfusion hok
    · split at hok
      · exact Except.noConfusion hok
      · rename_i hnot
        omega

/-- C3 witness: a validated one-source body indeed satisfies the bound
at a concrete input. -/
theorem validate_passes_at_most_one_source_witness :
    sourceCount gcsOnlySpec ≤ 1 :=
  validate_passes_at_most_one_source gcsOnlyBody gcsOnlySpec (by rfl) (by rfl)

theorem reformat_schedule_transferSpec (ds : Bool) (today : CalDate) (b : TransferJobBody) :
    (_reformat_schedule ds today b).transferSpec = b.transferSpec := by
  obtain ⟨n, d, st, sch, sp⟩ := b
  cases sch <;> cases ds <;> rfl

theorem inject_aws_schedule (creds : Credentials) (b : TransferJobBody) :
    (_inject_aws_credentials creds b).schedule = b.schedule := by
  obtain ⟨n, d, st, sch, sp⟩ := b
  cases sp with
  | none => rfl
  | some spec =>
    obtain ⟨g, a, h, k⟩ := spec
    cases a with
    | none => rfl
    | some src =>
      obtain ⟨bn, p, arn, ak⟩ := src
      cases arn <;> rfl

theorem reformat_date_idem (v : DateValue) :
    _reformat_date (_reformat_date v) = _reformat_date v := by
  cases v <;> rfl

theorem reformat_time_idem (v : TimeValue) :
    _reformat_time (_reformat_time v) = _reformat_time v := by
  cases v <;> rfl

theorem reformatScheduleFields_idem (s : Schedule) :
    reformatScheduleFields (reformatScheduleFields s) = reformatScheduleFields s := by
  obtain ⟨sd, ed, tod⟩ := s
  cases sd <;> cases ed <;> cases tod <;>
    simp [reformatScheduleFields, reformat_date_idem, reformat_time_idem]

theorem inject_aws_idem (creds : Credentials) (b : TransferJobBody) :
    _inject_aws_credentials creds (_inject_aws_credentials creds b)
      = _inject_aws_credentials creds b := by
  obtain ⟨n, d, st, sch, sp⟩ := b
  cases sp with
  | none => rfl
  | some spec =>
    obtain ⟨g, a, h, k⟩ := spec
    cases a with
    | none => rfl
    | some src =>
      obtain ⟨bn, p, arn, ak⟩ := src
      cases arn <;> rfl

theorem reformat_schedule_idem (ds : Bool) (today : CalDate) (b : TransferJobBody) :
    _reformat_schedule ds today (_reformat_schedule ds today b)
      = _reformat_schedule ds today b := by
  obtain ⟨n, d, st, sch, sp⟩ := b
  cases sch with
  | none =>
    cases ds with
    | false => rfl
    | true => simp [_reformat_schedule, reformatScheduleFields_idem]
  | some s => simp [_reformat_schedule, reformatScheduleFields_idem]

theorem inject_reformat_comm (creds : Credentials) (ds : Bool) (today : CalDate)
    (b : TransferJobBody) :
    _inject_aws_credentials creds (_reformat_schedule ds today b)
      = _reformat_schedule ds today (_inject_aws_credentials creds b) := by
  obtain ⟨n, d, st, sch, sp⟩ := b
  cases sp with
  | none => cases sch <;> cases ds <;> rfl
  | some spec =>
    obtain ⟨g, a, h, k⟩ := spec
    cases a with
    | none => cases sch <;> cases ds <;> rfl
    | some src =>
      obtain ⟨bn, p, arn, ak⟩ := src
      cases arn <;> cases sch <;> cases ds <;> rfl

/-- C5: process is idempotent with respect to the schedule date and
time field conversion: a second application of process changes nothing,
and in particular entries already in field-mapping form are left
unchanged by a further application. -/
theorem process_body_idempotent (ds : Bool) (creds : Credentials) (today : CalDate)
    (b : TransferJobBody) :
    process_body ds creds today (process_body ds creds today b)
      = process_body ds creds today b := by
  unfold process_body
  rw [inject_reformat_comm, reformat_schedule_idem, inject_aws_idem]

/-- C2: for every body whose transfer spec contains an AWS S3 source,
preprocessing injects no access key when the source already carries a
role based access arrangement, even though a resolver is supplied, and
otherwise injects exactly the resolved access key id and secret into
the source block. -/
theorem process_body_aws_injection (ds : Bool) (creds : Credentials) (today : CalDate)
    (b : TransferJobBody) (spec : TransferSpec) (src : AwsS3DataSource)
    (hspec : b.transferSpec = some spec) (hsrc : spec.awsS3DataSource = some src) :
    (src.awsRoleArn.isSome = true →
       awsSourceOf (process_body ds creds today b) = some src)
      ∧ (src.awsRoleArn = none →
       awsSourceOf (process_body ds creds today b) = some (injectedAwsSource creds src)) := by
  have hts : awsSourceOf (process_body ds creds today b)
      = awsSourceOf (_inject_aws_credentials creds b) := by
    unfold awsSourceOf process_body
    rw [reformat_schedule_transferSpec]
  rw [hts]
  obtain ⟨n, d, st, sch, sp⟩ := b
  replace hspec : sp = some spec := hspec
  subst hspec
  obtain ⟨g, a, h, k⟩ := spec
  replace hsrc : a = some src := hsrc
  subst hsrc
  obtain ⟨bn, p, arn, ak⟩ := src
  constructor
  · intro harn
    cases arn with
    | none => simp at harn
    | some r => rfl
  · intro harn
    replace harn : arn = none := harn
    subst harn
    rfl

/-- C2 witness: at the body of test_should_inject_aws_credentials the
resolved test credentials are injected. -/
theorem process_body_aws_injection_witness :
    awsSourceOf (process_body false testCredentials testDate awsOnlyBody)
      = some (injectedAwsSource testCredentials sourceAwsBlock) :=
  (process_body_aws_injection false testCredentials testDate awsOnlyBody awsOnlySpec
    sourceAwsBlock rfl rfl).2 rfl

/-- C4 counterexample: with the default_schedule flag set, process does
not return the empty body unchanged: the unit test
test_should_set_default_schedule pins that a default schedule for the
current date is inserted even into an empty body. -/
theorem process_empty_default_schedule_counterexample :
    process_body true testCredentials testDate emptyTransferJobBody
      ≠ emptyTransferJobBody := by
  decide

/-- C4 amended: process returns the empty body unchanged whenever the
default_schedule flag is not set, for every credential resolver; when
the flag is set, the result is the body holding only the default
schedule, whose start and end dates are the current date in
field-mapping form. -/
theorem process_empty_body_behavior (creds : Credentials) (today : CalDate) :
    process_body false creds today emptyTransferJobBody = emptyTransferJobBody
      ∧ process_body true creds today emptyTransferJobBody
          = defaultScheduleOnlyBody today :=
  ⟨rfl, rfl⟩

/-- C6: for every body with a schedule, process converts a native
calendar date in scheduleStartDate or scheduleEndDate to the
field-mapping of day, month and year of that date, and a native time
of day in startTimeOfDay to the field-mapping of hours, minutes and
seconds of that time. -/
theorem process_converts_native_dates (ds : Bool) (creds : Credentials) (today : CalDate)
    (b : TransferJobBody) (s : Schedule) (hs : b.schedule = some s) :
    (∀ d0 : CalDate, s.scheduleStartDate = some (.native d0) →
       scheduleStartDateOf (process_body ds creds today b)
         = some (.fields { day := d0.day, month := d0.month, year := d0.year }))
      ∧ (∀ d0 : CalDate, s.scheduleEndDate = some (.native d0) →
       scheduleEndDateOf (process_body ds creds today b)
         = some (.fields { day := d0.day, month := d0.month, year := d0.year }))
      ∧ (∀ t0 : ClockTime, s.startTimeOfDay = some (.native t0) →
       startTimeOfDayOf (process_body ds creds today b)
         = some (.fields { hours := t0.hour, minutes := t0.minute, seconds := t0.second })) := by
  have hsch : (process_body ds creds today b).schedule
      = some (reformatScheduleFields s) := by
    unfold process_body _reformat_schedule
    rw [inject_aws_schedule, hs]
  refine ⟨?_, ?_, ?_⟩
  · intro d0 hd
    unfold scheduleStartDateOf
    rw [hsch]
    simp [reformatScheduleFields, hd, _reformat_date, _convert_date_to_dict]
  · intro d0 hd
    unfold scheduleEndDateOf
    rw [hsch]
    simp [reformatScheduleFields, hd, _reformat_date, _convert_date_to_dict]
  · intro t0 ht
    unfold startTimeOfDayOf
    rw [hsch]
    simp [reformatScheduleFields, ht, _reformat_time, _convert_time_to_dict]

/-- C6 witness: the native schedule of the unit tests is converted to
the expected field-mappings at a concrete input. -/
theorem process_converts_native_dates_witness :
    scheduleStartDateOf (process_body false testCredentials testDate nativeScheduleBody)
      = some (.fields { day := 15, month := 10, year := 2018 })
      ∧ startTimeOfDayOf (process_body false testCredentials testDate nativeScheduleBody)
          = some (.fields { hours := 11, minutes := 42, seconds := 43 }) :=
  ⟨(process_converts_native_dates false testCredentials testDate nativeScheduleBody
      nativeSchedule rfl).1 testDate rfl,
   (process_converts_native_dates false testCredentials testDate nativeScheduleBody
      nativeSchedule rfl).2.2 testTime rfl⟩

/-- C8: for the S3 to GCS and GCS to GCS convenience operators,
construction with delete_job_after_completion true and wait false
raises a ConfigurationError immediately at construction time, before
any execution step can run, while construction with both flags true
succeeds. -/
theorem delete_without_wait_fails_construction (tid b1 b2 : String) :
    mkS3ToGCSOperator tid b1 b2 false true = Except.error deleteWithoutWaitMsg
      ∧ mkS3ToGCSOperator tid b1 b2 true true
          = Except.ok { task_id := tid, s3_bucket := b1, gcs_bucket := b2,
                        wait := true, delete_job_after_completion := true }
      ∧ mkGCSToGCSOperator tid b1 b2 false true = Except.error deleteWithoutWaitMsg
      ∧ mkGCSToGCSOperator tid b1 b2 true true
          = Except.ok { task_id := tid, source_bucket := b1, destination_bucket := b2,
                        wait := true, delete_job_after_completion := true } :=
  ⟨rfl, rfl, rfl, rfl⟩

/-- C9: for the deferred completion callback of both convenience
operators, an error event raises a user visible failure carrying the
message and a success event completes without raising. -/
theorem execute_complete_event_contract (op1 : CloudDataTransferServiceS3ToGCSOperator)
    (op2 : CloudDataTransferServiceGCSToGCSOperator) (m : String) :
    op1.execute_complete (.error m) = Except.error m
      ∧ op1.execute_complete .success = Except.ok ()
      ∧ op2.execute_complete (.error m) = Except.error m
      ∧ op2.execute_complete .success = Except.ok () :=
  ⟨rfl, rfl, rfl, rfl⟩

/-! ## Helper lemmas: inventory mapping -/

theorem dictLookup_dictInsert_self (m : InventoryMapping) (k : String) (v : InventoryEntry) :
    dictLookup (dictInsert m k v) k = some v := by
  induction m with
  | nil => simp [dictInsert, dictLookup]
  | cons hd tl ih =>
    obtain ⟨k1, v1⟩ := hd
    by_cases h : k1 = k
    · simp [dictInsert, dictLookup, h]
    · simp [dictInsert, dictLookup, h, ih]

theorem dictLookup_dictInsert_ne (m : InventoryMapping) (k : String) (v : InventoryEntry)
    (k2 : String) (h : k ≠ k2) :
    dictLookup (dictInsert m k v) k2 = dictLookup m k2 := by
  induction m with
  | nil => simp [dictInsert, dictLookup, h]
  | cons hd tl ih =>
    obtain ⟨k1, v1⟩ := hd
    by_cases h1 : k1 = k
    · subst h1
      simp [dictInsert, dictLookup, h]
    · simp [dictInsert, dictLookup, h1, ih]

theorem foldl_dictLookup_frame (f : InventoryMapping → String → InventoryMapping)
    (pkg : String) (hf : ∀ m p, p ≠ pkg → dictLookup (f m p) pkg = dictLookup m pkg)
    (l : List String) (m : InventoryMapping) (hmem : pkg ∉ l) :
    dictLookup (l.foldl f m) pkg = dictLookup m pkg := by
  induction l generalizing m with
  | nil => rfl
  | cons p tl ih =>
    simp only [List.mem_cons, not_or] at hmem
    rw [List.foldl_cons, ih _ hmem.2, hf m p (fun h => hmem.1 h.symm)]

theorem addProviderPackage_lookup_ne (env : Option String) (fs : List String)
    (m : InventoryMapping) (p pkg : String) (h : p ≠ pkg) :
    dictLookup (addProviderPackage env fs m p) pkg = dictLookup m pkg := by
  unfold addProviderPackage
  split_ifs with h1 h2
  · rfl
  · rfl
  · exact dictLookup_dictInsert_ne m p _ pkg h

theorem addCorePackage_lookup_ne (env : Option String) (fs : List String)
    (m : InventoryMapping) (p pkg : String) (h : p ≠ pkg) :
    dictLookup (addCorePackage env fs m p) pkg = dictLookup m pkg := by
  unfold addCorePackage
  split_ifs with h1
  · rfl
  · exact dictLookup_dictInsert_ne m p _ pkg h

theorem addTopPackage_lookup_ne (env : Option String) (fs : List String)
    (m : InventoryMapping) (p pkg : String) (h : p ≠ pkg) :
    dictLookup (addTopPackage env fs m p) pkg = dictLookup m pkg := by
  unfold addTopPackage
  split_ifs with h1
  · rfl
  · exact dictLookup_dictInsert_ne m p _ pkg h

theorem providerFold_lookup_skip (env : Option String) (fs : List String) (pkg : String)
    (hdoc : fs.contains (docInventoryPath pkg) = false)
    (hcache : fs.contains (cacheInventoryPath pkg) = false)
    (l : List String) (m : InventoryMapping) :
    dictLookup (l.foldl (addProviderPackage env fs) m) pkg = dictLookup m pkg := by
  induction l generalizing m with
  | nil => rfl
  | cons p tl ih =>
    rw [List.foldl_cons, ih]
    by_cases hp : p = pkg
    · subst hp
      unfold addProviderPackage
      split_ifs with h1 h2
      · rfl
      · rfl
      · exact absurd (by rw [hdoc, hcache]; rfl) h2
    · exact addProviderPackage_lookup_ne env fs m p pkg hp

theorem providerFold_lookup_mem (env : Option String) (fs : List String) (pkg : String)
    (henv : env ≠ some pkg)
    (hex : (fs.contains (docInventoryPath pkg) || fs.contains (cacheInventoryPath pkg)) = true)
    (l : List String) (m : InventoryMapping) (hmem : pkg ∈ l) :
    dictLookup (l.foldl (addProviderPackage env fs) m) pkg
      = some (stableInventoryEntry fs pkg) := by
  induction l generalizing m with
  | nil => cases hmem
  | cons p tl ih =>
    rw [List.foldl_cons]
    by_cases htl : pkg ∈ tl
    · exact ih _ htl
    · have hp : pkg = p := by
        rcases List.mem_cons.mp hmem with h | h
        · exact h
        · exact absurd h htl
      subst hp
      rw [foldl_dictLookup_frame _ pkg
        (fun m2 p2 hne => addProviderPackage_lookup_ne env fs m2 p2 pkg hne) tl _ htl]
      unfold addProviderPackage
      split_ifs with h1 h2
      · exact absurd h1 henv
      · exfalso
        simp only [Bool.and_eq_true, Bool.not_eq_true'] at h2
        rw [h2.1, h2.2] at hex
        exact Bool.noConfusion hex
      · exact dictLookup_dictInsert_self m pkg _

theorem coreFold_lookup_mem (env : Option String) (fs : List String) (pkg : String)
    (henv : env ≠ some pkg) (l : List String) (m : InventoryMapping) (hmem : pkg ∈ l) :
    dictLookup (l.foldl (addCorePackage env fs) m) pkg
      = some (stableInventoryEntry fs pkg) := by
  induction l generalizing m with
  | nil => cases hmem
  | cons p tl ih =>
    rw [List.foldl_cons]
    by_cases htl : pkg ∈ tl
    · exact ih _ htl
    · have hp : pkg = p := by
        rcases List.mem_cons.mp hmem with h | h
        · exact h
        · exact absurd h htl
      subst hp
      rw [foldl_dictLookup_frame _ pkg
        (fun m2 p2 hne => addCorePackage_lookup_ne env fs m2 p2 pkg hne) tl _ htl]
      unfold addCorePackage
      split_ifs with h1
      · exact absurd h1 henv
      · exact dictLookup_dictInsert_self m pkg _

theorem topFold_lookup_mem (env : Option String) (fs : List String) (pkg : String)
    (henv : env ≠ some pkg) (l : List String) (m : InventoryMapping) (hmem : pkg ∈ l) :
    dictLookup (l.foldl (addTopPackage env fs) m) pkg
      = some (topInventoryEntry fs pkg) := by
  induction l generalizing m with
  | nil => cases hmem
  | cons p tl ih =>
    rw [List.foldl_cons]
    by_cases htl : pkg ∈ tl
    · exact ih _ htl
    · have hp : pkg = p := by
        rcases List.mem_cons.mp hmem with h | h
        · exact h
        · exact absurd h htl
      subst hp
      rw [foldl_dictLookup_frame _ pkg
        (fun m2 p2 hne => addTopPackage_lookup_ne env fs m2 p2 pkg hne) tl _ htl]
      unfold addTopPackage
      split_ifs with h1
      · exact absurd h1 henv
      · exact dictLookup_dictInsert_self m pkg _

/-- C7 amended: a package of the provider list (other than the five
appended names) gets no entry when neither inventory path exists and
otherwise gets the freshly built path when it exists and the cached
path otherwise; the three appended virtual packages and the two extra
top-level documentation sets always get an entry (unless equal to the
current build package), with the freshly built path when it exists and
the cached path otherwise, even when neither file exists. -/
theorem intersphinx_mapping_membership (packages : List String) (env : Option String)
    (fs : List String) (pkg : String) :
    (pkg ∈ packages → env ≠ some pkg → pkg ∉ corePackages → pkg ∉ topPackages →
       ((fs.contains (docInventoryPath pkg) = false
           ∧ fs.contains (cacheInventoryPath pkg) = false) →
          dictLookup (_generate_provider_intersphinx_mapping packages env fs) pkg = none)
         ∧ ((fs.contains (docInventoryPath pkg)
               || fs.contains (cacheInventoryPath pkg)) = true →
          dictLookup (_generate_provider_intersphinx_mapping packages env fs) pkg
            = some (stableInventoryEntry fs pkg)))
      ∧ (pkg ∈ corePackages → env ≠ some pkg →
          dictLookup (_generate_provider_intersphinx_mapping packages env fs) pkg
            = some (stableInventoryEntry fs pkg))
      ∧ (pkg ∈ topPackages → env ≠ some pkg →
          dictLookup (_generate_provider_intersphinx_mapping packages env fs) pkg
            = some (topInventoryEntry fs pkg)) := by
  have hgen : _generate_provider_intersphinx_mapping packages env fs
      = topPackages.foldl (addTopPackage env fs)
          (corePackages.foldl (addCorePackage env fs)
            (packages.foldl (addProviderPackage env fs) [])) := rfl
  refine ⟨?_, ?_, ?_⟩
  · intro hmem henv hcore htop
    constructor
    · rintro ⟨hdoc, hcache⟩
      rw [hgen,
        foldl_dictLookup_frame _ pkg
          (fun m2 p2 hne => addTopPackage_lookup_ne env fs m2 p2 pkg hne) topPackages _ htop,
        foldl_dictLookup_frame _ pkg
          (fun m2 p2 hne => addCorePackage_lookup_ne env fs m2 p2 pkg hne) corePackages _ hcore,
        providerFold_lookup_skip env fs pkg hdoc hcache packages []]
      rfl
    · intro hex
      rw [hgen,
        foldl_dictLookup_frame _ pkg
          (fun m2 p2 hne => addTopPackage_lookup_ne env fs m2 p2 pkg hne) topPackages _ htop,
        foldl_dictLookup_frame _ pkg
          (fun m2 p2 hne => addCorePackage_lookup_ne env fs m2 p2 pkg hne) corePackages _ hcore,
        providerFold_lookup_mem env fs pkg henv hex packages _ hmem]
  · intro hmemc henv
    fin_cases hmemc <;>
      · rw [hgen,
          foldl_dictLookup_frame _ _
            (fun m2 p2 hne => addTopPackage_lookup_ne env fs m2 p2 _ hne) topPackages _
            (by decide)]
        exact coreFold_lookup_mem env fs _ henv corePackages _ (by decide)
  · intro hmemt henv
    rw [hgen]
    exact topFold_lookup_mem env fs pkg henv topPackages _ hmemt

/-- C7 counterexample: on an empty filesystem, where neither inventory
path of the virtual package apache-airflow exists, the builder still
returns an entry for it, pointing at the non-existent cached path, so
the skip-when-missing rule does not extend to the appended packages. -/
theorem intersphinx_virtual_package_entry_counterexample :
    dictLookup (_generate_provider_intersphinx_mapping ["foo"] none []) "apache-airflow"
      = some ("/docs/apache-airflow/stable/",
              ["generated/_inventory_cache/apache-airflow/objects.inv"])
      ∧ ([] : List String).contains (docInventoryPath "apache-airflow") = false
      ∧ ([] : List String).contains (cacheInventoryPath "apache-airflow") = false := by
  refine ⟨?_, rfl, rfl⟩
  rfl

/-- C7 witness: a provider package whose freshly built inventory exists
gets an entry holding the freshly built path at a concrete input. -/
theorem intersphinx_mapping_membership_witness :
    dictLookup
      (_generate_provider_intersphinx_mapping ["apache-airflow-providers-google"] none
        [docInventoryPath "apache-airflow-providers-google"])
      "apache-airflow-providers-google"
      = some (stableInventoryEntry [docInventoryPath "apache-airflow-providers-google"]
          "apache-airflow-providers-google") :=
  ((intersphinx_mapping_membership ["apache-airflow-providers-google"] none
      [docInventoryPath "apache-airflow-providers-google"]
      "apache-airflow-providers-google").1
    (by decide) (by decide) (by decide) (by decide)).2 (by decide)

theorem dictLookup_eq_none_of_not_mem (m : InventoryMapping) (k : String)
    (h : k ∉ mappingKeys m) : dictLookup m k = none := by
  induction m with
  | nil => rfl
  | cons hd tl ih =>
    obtain ⟨k1, v1⟩ := hd
    simp only [mappingKeys, List.map_cons, List.mem_cons, not_or] at h
    have hne : ¬ k1 = k := fun hh => h.1 hh.symm
    simp only [dictLookup, hne, if_false]
    exact ih h.2

theorem dictUpdate_lookup_of_not_mem :
    ∀ (pm m : InventoryMapping) (k : String), dictLookup pm k = none →
      dictLookup (dictUpdate m pm) k = dictLookup m k := by
  intro pm
  induction pm with
  | nil => intro m k _; rfl
  | cons hd tl ih =>
    intro m k hk
    obtain ⟨k1, v1⟩ := hd
    have hne : ¬ k1 = k := by
      intro h
      simp [dictLookup, h] at hk
    have htl : dictLookup tl k = none := by
      simpa [dictLookup, hne] using hk
    show dictLookup (dictUpdate (dictInsert m k1 v1) tl) k = dictLookup m k
    rw [ih (dictInsert m k1 v1) k htl, dictLookup_dictInsert_ne m k1 v1 k hne]

theorem dictInsert_cons_eq (tl : InventoryMapping) (k1 k : String)
    (v1 v : InventoryEntry) (h : k1 = k) :
    dictInsert ((k1, v1) :: tl) k v = (k, v) :: tl := by
  simp [dictInsert, h]

theorem dictInsert_cons_ne (tl : InventoryMapping) (k1 k : String)
    (v1 v : InventoryEntry) (h : ¬ k1 = k) :
    dictInsert ((k1, v1) :: tl) k v = (k1, v1) :: dictInsert tl k v := by
  simp [dictInsert, h]

theorem mem_mappingKeys_dictInsert (m : InventoryMapping) (k : String) (v : InventoryEntry)
    (x : String) :
    x ∈ mappingKeys (dictInsert m k v) ↔ x = k ∨ x ∈ mappingKeys m := by
  induction m with
  | nil => simp [dictInsert, mappingKeys]
  | cons hd tl ih =>
    obtain ⟨k1, v1⟩ := hd
    by_cases h : k1 = k
    · subst h
      rw [dictInsert_cons_eq tl k1 k1 v1 v rfl]
      simp only [mappingKeys, List.map_cons, List.mem_cons]
      tauto
    · rw [dictInsert_cons_ne tl k1 k v1 v h]
      simp only [mappingKeys, List.map_cons, List.mem_cons] at ih ⊢
      rw [ih]
      tauto

theorem mappingKeys_nodup_dictInsert (m : InventoryMapping) (k : String) (v : InventoryEntry)
    (h : (mappingKeys m).Nodup) : (mappingKeys (dictInsert m k v)).Nodup := by
  induction m with
  | nil => simp [dictInsert, mappingKeys]
  | cons hd tl ih =>
    obtain ⟨k1, v1⟩ := hd
    simp only [mappingKeys, List.map_cons, List.nodup_cons] at h
    by_cases hk : k1 = k
    · subst hk
      rw [dictInsert_cons_eq tl k1 k1 v1 v rfl]
      simp only [mappingKeys, List.map_cons, List.nodup_cons]
      exact ⟨h.1, h.2⟩
    · rw [dictInsert_cons_ne tl k1 k v1 v hk]
      simp only [mappingKeys, List.map_cons, List.nodup_cons]
      constructor
      · intro hmem
        rcases (mem_mappingKeys_dictInsert tl k v k1).mp hmem with h1 | h1
        · exact hk h1
        · exact h.1 h1
      · exact ih h.2

theorem addProviderPackage_keys_nodup (env : Option String) (fs : List String)
    (m : InventoryMapping) (p : String) (h : (mappingKeys m).Nodup) :
    (mappingKeys (addProviderPackage env fs m p)).Nodup := by
  unfold addProviderPackage
  split_ifs
  · exact h
  · exact h
  · exact mappingKeys_nodup_dictInsert m p _ h

theorem addCorePackage_keys_nodup (env : Option String) (fs : List String)
    (m : InventoryMapping) (p : String) (h : (mappingKeys m).Nodup) :
    (mappingKeys (addCorePackage env fs m p)).Nodup := by
  unfold addCorePackage
  split_ifs
  · exact h
  · exact mappingKeys_nodup_dictInsert m p _ h

theorem addTopPackage_keys_nodup (env : Option String) (fs : List String)
    (m : InventoryMapping) (p : String) (h : (mappingKeys m).Nodup) :
    (mappingKeys (addTopPackage env fs m p)).Nodup := by
  unfold addTopPackage
  split_ifs
  · exact h
  · exact mappingKeys_nodup_dictInsert m p _ h

theorem foldl_keys_nodup (f : InventoryMapping → String → InventoryMapping)
    (hf : ∀ m p, (mappingKeys m).Nodup → (mappingKeys (f m p)).Nodup) :
    ∀ (l : List String) (m : InventoryMapping), (mappingKeys m).Nodup →
      (mappingKeys (l.foldl f m)).Nodup := by
  intro l
  induction l with
  | nil => intro m h; exact h
  | cons p tl ih =>
    intro m h
    rw [List.foldl_cons]
    exact ih _ (hf m p h)

theorem gen_keys_nodup (packages : List String) (env : Option String) (fs : List String) :
    (mappingKeys (_generate_provider_intersphinx_mapping packages env fs)).Nodup := by
  show (mappingKeys (topPackages.foldl (addTopPackage env fs)
    (corePackages.foldl (addCorePackage env fs)
      (packages.foldl (addProviderPackage env fs) [])))).Nodup
  apply foldl_keys_nodup _ (addTopPackage_keys_nodup env fs)
  apply foldl_keys_nodup _ (addCorePackage_keys_nodup env fs)
  apply foldl_keys_nodup _ (addProviderPackage_keys_nodup env fs)
  simp [mappingKeys]

theorem dictUpdate_lookup_of_mem :
    ∀ (pm m : InventoryMapping) (k : String) (v : InventoryEntry),
      (mappingKeys pm).Nodup → dictLookup pm k = some v →
      dictLookup (dictUpdate m pm) k = some v := by
  intro pm
  induction pm with
  | nil => intro m k v _ hk; exact Option.noConfusion hk
  | cons hd tl ih =>
    intro m k v hnd hk
    obtain ⟨k1, v1⟩ := hd
    simp only [mappingKeys, List.map_cons, List.nodup_cons] at hnd
    by_cases h : k1 = k
    · subst h
      have hv : v1 = v := by simpa [dictLookup] using hk
      subst hv
      have htl : dictLookup tl k1 = none :=
        dictLookup_eq_none_of_not_mem tl k1 hnd.1
      show dictLookup (dictUpdate (dictInsert m k1 v1) tl) k1 = some v1
      rw [dictUpdate_lookup_of_not_mem tl (dictInsert m k1 v1) k1 htl,
        dictLookup_dictInsert_self]
    · have htl : dictLookup tl k = some v := by simpa [dictLookup, h] using hk
      show dictLookup (dictUpdate (dictInsert m k1 v1) tl) k = some v
      exact ih (dictInsert m k1 v1) k v hnd.2 htl

theorem dictUpdate_nil_lookup (pm : InventoryMapping) (k : String)
    (h : (mappingKeys pm).Nodup) :
    dictLookup (dictUpdate [] pm) k = dictLookup pm k := by
  cases hk : dictLookup pm k with
  | none => rw [dictUpdate_lookup_of_not_mem pm [] k hk]; rfl
  | some v => exact dictUpdate_lookup_of_mem pm [] k v h hk

/-- C10: the config-inited hook merges the generated provider mapping
into the pre-existing intersphinx mapping rather than replacing it:
every key of the prior mapping that the builder does not produce keeps
its prior value in the resulting configuration, and when the prior
mapping is absent the result agrees with the provider mapping on every
key. -/
theorem create_init_py_merges (packages : List String) (env : Option String)
    (fs : List String) (m : InventoryMapping) (k : String) :
    (dictLookup (_generate_provider_intersphinx_mapping packages env fs) k = none →
       dictLookup (_create_init_py packages env fs (some m)) k = dictLookup m k)
      ∧ dictLookup (_create_init_py packages env fs none) k
          = dictLookup (_generate_provider_intersphinx_mapping packages env fs) k := by
  constructor
  · intro hk
    exact dictUpdate_lookup_of_not_mem _ m k hk
  · exact dictUpdate_nil_lookup _ k (gen_keys_nodup packages env fs)

/-- C10 witness: a prior entry under a key the builder does not produce
survives the merge at a concrete input. -/
theorem create_init_py_merges_witness :
    dictLookup (_create_init_py [] none [] (some [("x", ("u", ["p"]))])) "x"
      = some ("u", ["p"]) := by
  have h := (create_init_py_merges [] none [] [("x", ("u", ["p"]))] "x").1 (by rfl)
  rw [h]
  rfl
